import Mathlib

/-!
Verification development for the input-capture-api repository.

The repository is a thin HTTP control-plane over two external collaborators:
a recorder (session persistence, ULID-keyed session records, event storage)
and an interceptor (live HID capture driven by a hook and a stop event).
The core under verification is `src/input_capture_api/session_manager.py`
(class `SessionManager`) plus the façade endpoint
`update_session_status` of `src/input_capture_api/api.py`.

The embedding below is shallow:

* The external `ulid` library (python-ulid) is modelled by a concrete
  Crockford base32 codec: `ULID.from_str` decodes a 26-character string
  (case-insensitively, with the Crockford aliases I/L -> 1 and O -> 0,
  excluding U) into a 128-bit value, and `ULID.to_str` produces the
  canonical 26-character uppercase encoding, mirroring
  `ULID.from_str` / `str(ulid)` of the library.
* The registry `self._sessions : dict[str, tuple[ctx, task, stop_event]]`
  is an association list with Python-dict semantics for lookup,
  `pop` (raising `KeyError` on a missing key) and item assignment.
* The collaborators are parameters: the outcome of
  `await ctx.__aenter__()` during `start_session`, and the outcomes of
  `await task` and `await ctx.__aexit__(...)` during `end_session`, are
  explicit `Except` values; the recorder's read API is a structure of
  pure functions, since the bridge never mutates it.
* `end_session` additionally returns the sequence of actions it performed
  (parse, registry pop, signal set, task await, context exit), so that
  ordering and invoked-or-not properties can be stated.
* The handles held in a registry entry (context manager, task,
  stop event) are identified by numeric tags, since the bridge only
  stores and passes them around.
-/

/-- Error values raised by the bridge or its collaborators: `keyError` is
Python's `KeyError` from `dict.pop` on a missing key, `valueError` is the
`ValueError` raised by `ULID.from_str` on a malformed string, and
`external` stands for an arbitrary exception raised by a collaborator
(resource acquisition, the background task, or resource release). -/
inductive Err where
  | keyError (key : String)
  | valueError (msg : String)
  | external (code : Nat)
deriving DecidableEq, Repr

/-- A 128-bit ULID value, as produced by the external recorder and by
decoding a ULID string. The value is the integer encoded by the
16 bytes of the ULID. -/
structure ULIDv where
  val : Nat
deriving DecidableEq, Repr

/-- Crockford base32 alphabet used by ULID encoding (no I, L, O, U). -/
def crockford : List Char :=
  ['0', '1', '2', '3', '4', '5', '6', '7', '8', '9',
   'A', 'B', 'C', 'D', 'E', 'F', 'G', 'H', 'J', 'K',
   'M', 'N', 'P', 'Q', 'R', 'S', 'T', 'V', 'W', 'X', 'Y', 'Z']

/-- Encode one base32 digit as its canonical (uppercase) character. -/
def encChar (d : Nat) : Char :=
  crockford.getD d '0'

/-- Decode one character as a Crockford base32 digit: case-insensitive,
with the aliases i/I/l/L -> 1 and o/O -> 0; U and all other characters
are invalid. -/
def decChar (c : Char) : Option Nat :=
  let n := c.toNat
  let m := if 97 ≤ n ∧ n ≤ 122 then n - 32 else n
  if 48 ≤ m ∧ m ≤ 57 then some (m - 48)
  else if 65 ≤ m ∧ m ≤ 72 then some (m - 55)
  else if m = 73 ∨ m = 76 then some 1
  else if m = 74 ∨ m = 75 then some (m - 56)
  else if m = 77 ∨ m = 78 then some (m - 57)
  else if m = 79 then some 0
  else if 80 ≤ m ∧ m ≤ 84 then some (m - 58)
  else if 86 ≤ m ∧ m ≤ 90 then some (m - 59)
  else none

/-- Encode the low `5 * k` bits of `n` as `k` base32 characters, most
significant first. -/
def encChars : Nat → Nat → List Char
  | 0, _ => []
  | k + 1, n => encChars k (n / 32) ++ [encChar (n % 32)]

/-- Decode a list of base32 characters into the accumulated value;
fails on the first invalid character. -/
def decChars : List Char → Nat → Option Nat
  | [], acc => some acc
  | c :: cs, acc =>
    match decChar c with
    | none => none
    | some d => decChars cs (32 * acc + d)

/-- Model of `str(ulid)` of the external ulid library: the canonical
26-character uppercase Crockford encoding of the 128-bit value. -/
def ULID.to_str (u : ULIDv) : String :=
  String.mk (encChars 26 u.val)

/-- Model of `ULID.from_str` of the external ulid library: requires
exactly 26 characters, decodes them case-insensitively with the
Crockford aliases, and keeps the low 128 bits; any other input raises
`ValueError` (modelled as `none`). -/
def ULID.from_str (s : String) : Option ULIDv :=
  if s.data.length = 26 then
    (decChars s.data 0).map (fun n => ⟨n % 2 ^ 128⟩)
  else
    none

/-- Session record returned by the recorder collaborator
(hid_recorder `Session`): the identifier the bridge keys the registry by
(`handle.session.id` in `start_session`) and the display name. -/
structure Session where
  id : ULIDv
  name : String
deriving DecidableEq, Repr

/-- Event record returned by the recorder collaborator
(hid_recorder `EventItem`): source device, event code and value.
The float timestamp field is not observed by any claim and is omitted. -/
structure EventItem where
  device : String
  code : Nat
  value : Nat
deriving DecidableEq, Repr

/-- The handle yielded by `await ctx.__aenter__()` in `start_session`:
the created session record plus the hook handed to the interceptor. -/
structure Handle where
  session : Session
  hook : Nat
deriving DecidableEq, Repr

/-- One value of the registry `self._sessions`: the tuple
`(context manager, task, stop_event)` stored under the session id,
each identified by a numeric tag since the bridge only stores them. -/
structure Entry where
  ctx : Nat
  task : Nat
  stopEvent : Nat
deriving DecidableEq, Repr

/-- The registry `self._sessions : dict[str, ...]`, as an association
list; all reachable registries have pairwise distinct keys. -/
abbrev Registry : Type := List (String × Entry)

/-- Python `d[k]` lookup (first binding of the key). -/
def dictFind (reg : Registry) (k : String) : Option Entry :=
  List.lookup k reg

/-- Python `d.pop(k)`: the removed value together with the remaining
dictionary, or `none` when the key is absent (a `KeyError`). -/
def dictPop (reg : Registry) (k : String) : Option (Entry × Registry) :=
  match List.lookup k reg with
  | none => none
  | some v => some (v, List.filter (fun p => p.1 ≠ k) reg)

/-- Python `d[k] = v`: bind `k` to `v`, replacing any previous binding. -/
def dictInsert (reg : Registry) (k : String) (v : Entry) : Registry :=
  List.filter (fun p => p.1 ≠ k) reg ++ [(k, v)]

/-- Number of bindings of a key in a registry (1 or 0 in any reachable
registry; used to state the exactly-one-entry properties). -/
def countKey (reg : Registry) (k : String) : Nat :=
  List.length (List.filter (fun p => p.1 = k) reg)

/-- Read API of the recorder collaborator (hid_recorder `Recorder`),
as consumed by `get_events`, `list_sessions` and `get_session`. The
bridge treats these as pure queries keyed by ULID value. -/
structure Recorder where
  getEvents : ULIDv → List EventItem
  listSessions : List Session
  getSession : ULIDv → Option Session

/-- Session metadata: the optional `dict[str, Any]` argument of
`start_session`, with values modelled as strings. -/
abbrev Metadata : Type := Option (List (String × String))

deriving instance DecidableEq for Except

/-- Result of `SessionManager.start_session`: the value returned or
exception raised, the registry afterwards, and how many background
tasks the call scheduled (`asyncio.create_task` calls). -/
structure StartResult where
  ret : Except Err Session
  registry : Registry
  tasksCreated : Nat
deriving DecidableEq, Repr

/-- Shallow embedding of `SessionManager.start_session`
(session_manager.py lines 30-55). `recorderSession` models
`recorder.session(name=..., metadata=...)` followed by
`await ctx.__aenter__()`: the acquisition outcome for this call.
On acquisition failure the exception propagates before the stop event
and task are created and before the registry is touched. On success a
stop event and a background task are created (tags `taskId`, `eventId`;
`ctxId` tags the context manager) and the entry is stored under
`str(handle.session.id)`. -/
def start_session (recorderSession : String → Metadata → Except Err Handle)
    (reg : Registry) (name : String) (metadata : Metadata)
    (ctxId taskId eventId : Nat) : StartResult :=
  match recorderSession name metadata with
  | .error e => ⟨.error e, reg, 0⟩
  | .ok h =>
    let session_id := ULID.to_str h.session.id
    ⟨.ok h.session, dictInsert reg session_id ⟨ctxId, taskId, eventId⟩, 1⟩

/-- One observable action performed by `end_session`, in order:
parsing the identifier, popping the registry entry, setting the stop
event, awaiting the background task, awaiting the context manager
exit. -/
inductive Act where
  | parse (s : String)
  | popEntry (k : String)
  | setSignal (ev : Nat)
  | awaitTask (t : Nat)
  | exitCtx (c : Nat)
deriving DecidableEq, BEq, Repr

/-- Result of `SessionManager.end_session`: the outcome, the registry
afterwards, and the sequence of actions the call performed. -/
structure EndResult where
  ret : Except Err Unit
  registry : Registry
  trace : List Act
deriving DecidableEq, Repr

/-- Shallow embedding of `SessionManager.end_session`
(session_manager.py lines 57-74). The call parses the identifier with
`ULID.from_str` (raising `ValueError` on malformed input, before any
registry access), pops the entry under the canonical string
`str(ulid_id)` (raising `KeyError` when absent), sets the stop event,
awaits the task (outcome `aw`; on failure the exception propagates and
the context manager is never exited), then awaits
`ctx.__aexit__(None, None, None)` (outcome `ex`). There is no
try/finally: each failure propagates at the point it occurs. -/
def end_session (reg : Registry) (aw ex : Except Err Unit)
    (session_id : String) : EndResult :=
  match ULID.from_str session_id with
  | none => ⟨.error (.valueError session_id), reg, [.parse session_id]⟩
  | some u =>
    let session_id_str := ULID.to_str u
    match dictPop reg session_id_str with
    | none =>
      ⟨.error (.keyError session_id_str), reg,
        [.parse session_id, .popEntry session_id_str]⟩
    | some (entry, reg2) =>
      let tr :=
        [Act.parse session_id, Act.popEntry session_id_str,
         Act.setSignal entry.stopEvent]
      match aw with
      | .error e => ⟨.error e, reg2, tr ++ [.awaitTask entry.task]⟩
      | .ok _ =>
        match ex with
        | .error e =>
          ⟨.error e, reg2, tr ++ [.awaitTask entry.task, .exitCtx entry.ctx]⟩
        | .ok _ =>
          ⟨.ok (), reg2, tr ++ [.awaitTask entry.task, .exitCtx entry.ctx]⟩

/-- Shallow embedding of `SessionManager.get_events`
(session_manager.py lines 76-86): parse the identifier, then return
exactly `recorder.get_events(ulid_id)`. The registry is returned
unchanged — the method never touches `self._sessions`. -/
def get_events (rec : Recorder) (reg : Registry) (session_id : String) :
    Except Err (List EventItem) × Registry :=
  match ULID.from_str session_id with
  | none => (.error (.valueError session_id), reg)
  | some u => (.ok (rec.getEvents u), reg)

/-- Shallow embedding of `SessionManager.list_sessions`
(session_manager.py lines 88-94): return exactly
`recorder.list_sessions()`; the registry is untouched. -/
def list_sessions (rec : Recorder) (reg : Registry) :
    List Session × Registry :=
  (rec.listSessions, reg)

/-- Shallow embedding of `SessionManager.get_session`
(session_manager.py lines 96-106): parse the identifier, then return
exactly `recorder.get_session(ulid_id)`; absence is the normal value
`none`, not an exception. The registry is untouched. -/
def get_session (rec : Recorder) (reg : Registry) (session_id : String) :
    Except Err (Option Session) × Registry :=
  match ULID.from_str session_id with
  | none => (.error (.valueError session_id), reg)
  | some u => (.ok (rec.getSession u), reg)

/-- HTTP-level failures the façade can produce. -/
inductive HTTPError where
  | badRequest (detail : String)
  | notFound (detail : String)
  | internalError (detail : String)
deriving DecidableEq, Repr

/-- Shallow embedding of the façade endpoint `update_session_status`
(api.py lines 106-127) with a configured manager. It rejects any status
other than "ended" with a 400, and otherwise evaluates
`manager.end_session(session_id)` — an async method called without
`await` from a synchronous endpoint, so the coroutine is created and
discarded and no statement of `end_session` ever runs — and returns the
success body `{"status": "ended"}`. Consequently the registry is never
read or written and no error from `end_session` can surface. -/
def update_session_status (reg : Registry) (_session_id : String)
    (status : String) : Except HTTPError String × Registry :=
  if status ≠ "ended" then
    (.error (.badRequest ("Invalid status: " ++ status
      ++ ". Only 'ended' is supported.")), reg)
  else
    (.ok "ended", reg)

/-- Whether an action is the context-manager exit (the resource
release step) of `end_session`. -/
def isExitCtx : Act → Bool
  | .exitCtx _ => true
  | _ => false

theorem encChars_length : ∀ (k n : Nat), (encChars k n).length = k
  | 0, _ => rfl
  | k + 1, n => by
    simp [encChars, encChars_length k]

theorem decChar_encChar : ∀ d : Nat, d < 32 → decChar (encChar d) = some d := by
  decide

theorem decChars_encChars_append (k : Nat) :
    ∀ (n acc : Nat) (rest : List Char),
      decChars (encChars k n ++ rest) acc
        = decChars rest (acc * 32 ^ k + n % 32 ^ k) := by
  induction k with
  | zero =>
    intro n acc rest
    simp [encChars, Nat.mod_one]
  | succ k ih =>
    intro n acc rest
    have hlt : n % 32 < 32 := Nat.mod_lt _ (by norm_num)
    have hd : decChar (encChar (n % 32)) = some (n % 32) :=
      decChar_encChar _ hlt
    rw [encChars, List.append_assoc, ih]
    show decChars (encChar (n % 32) :: rest) _ = _
    rw [decChars, hd]
    show decChars rest (32 * (acc * 32 ^ k + n / 32 % 32 ^ k) + n % 32)
        = decChars rest (acc * 32 ^ (k + 1) + n % 32 ^ (k + 1))
    have hmod : n % 32 ^ (k + 1) = n % 32 + 32 * (n / 32 % 32 ^ k) := by
      have h32 : (32 : Nat) ^ (k + 1) = 32 * 32 ^ k := by
        rw [pow_succ, Nat.mul_comm]
      rw [h32, Nat.mod_mul]
    have harith :
        32 * (acc * 32 ^ k + n / 32 % 32 ^ k) + n % 32
          = acc * 32 ^ (k + 1) + n % 32 ^ (k + 1) := by
      rw [hmod, pow_succ]
      ring
    rw [harith]

theorem from_str_to_str (u : ULIDv) (h : u.val < 2 ^ 128) :
    ULID.from_str (ULID.to_str u) = some u := by
  obtain ⟨v⟩ := u
  simp only [ULIDv.mk.injEq] at h ⊢
  unfold ULID.from_str ULID.to_str
  have hlen : (String.mk (encChars 26 v)).data.length = 26 := by
    simp [encChars_length]
  rw [if_pos hlen]
  have hdec := decChars_encChars_append 26 v 0 []
  rw [List.append_nil] at hdec
  have hsmall : v % 32 ^ 26 = v :=
    Nat.mod_eq_of_lt (lt_trans h (by norm_num))
  have hdata : (String.mk (encChars 26 v)).data = encChars 26 v := rfl
  rw [hdata, hdec]
  have hnum : (0 * 32 ^ 26 + v % 32 ^ 26) % 2 ^ 128 = v := by
    rw [Nat.zero_mul, Nat.zero_add, hsmall, Nat.mod_eq_of_lt h]
  rw [show decChars [] (0 * 32 ^ 26 + v % 32 ^ 26)
        = some (0 * 32 ^ 26 + v % 32 ^ 26) from rfl,
      Option.map_some', hnum]

theorem to_str_inj (u1 u2 : ULIDv) (h1 : u1.val < 2 ^ 128)
    (h2 : u2.val < 2 ^ 128) (he : ULID.to_str u1 = ULID.to_str u2) :
    u1 = u2 := by
  have hr := from_str_to_str u1 h1
  rw [he, from_str_to_str u2 h2] at hr
  exact (Option.some.inj hr).symm

theorem lookup_filter_ne (reg : Registry) (k : String) :
    List.lookup k (List.filter (fun p => p.1 ≠ k) reg) = none := by
  induction reg with
  | nil => rfl
  | cons p rest ih =>
    obtain ⟨a, b⟩ := p
    by_cases h : a = k
    · have hdec : (decide ((a, b).1 ≠ k)) = false := by simp [h]
      rw [List.filter_cons, hdec]
      simpa using ih
    · have hdec : (decide ((a, b).1 ≠ k)) = true := by simp [h]
      rw [List.filter_cons, hdec]
      have hne : (k == a) = false := beq_eq_false_iff_ne.mpr (Ne.symm h)
      simp only [if_pos]
      show (match k == a with
        | true => some b
        | false => List.lookup k (List.filter (fun p => p.1 ≠ k) rest)) = none
      rw [hne]
      exact ih

theorem dictPop_some (reg : Registry) (k : String) (entry : Entry)
    (reg2 : Registry) (h : dictPop reg k = some (entry, reg2)) :
    reg2 = List.filter (fun p => p.1 ≠ k) reg
      ∧ List.lookup k reg = some entry := by
  unfold dictPop at h
  cases hl : List.lookup k reg with
  | none => rw [hl] at h; exact absurd h (by simp)
  | some v =>
    rw [hl] at h
    simp only [Option.some.injEq, Prod.mk.injEq] at h
    exact ⟨h.2.symm, by rw [h.1]⟩

theorem countKey_append (a b : Registry) (k : String) :
    countKey (a ++ b) k = countKey a k + countKey b k := by
  simp [countKey, List.filter_append]

theorem countKey_filter_ne_self (reg : Registry) (k : String) :
    countKey (List.filter (fun p => p.1 ≠ k) reg) k = 0 := by
  induction reg with
  | nil => rfl
  | cons p rest ih =>
    obtain ⟨a, b⟩ := p
    by_cases h : a = k
    · have hdec : (decide ((a, b).1 ≠ k)) = false := by simp [h]
      rw [List.filter_cons, hdec]
      simp only [Bool.false_eq_true, if_false]
      exact ih
    · have hdec : (decide ((a, b).1 ≠ k)) = true := by simp [h]
      rw [List.filter_cons, hdec]
      simp only [if_pos]
      unfold countKey at ih ⊢
      rw [List.filter_cons]
      have hdec2 : (decide ((a, b).1 = k)) = false := by simp [h]
      rw [hdec2]
      simp only [Bool.false_eq_true, if_false]
      exact ih

theorem countKey_filter_ne_le (reg : Registry) (k j : String) :
    countKey (List.filter (fun p => p.1 ≠ k) reg) j ≤ countKey reg j := by
  have h1 : List.Sublist (List.filter (fun p => p.1 ≠ k) reg) reg :=
    List.filter_sublist reg
  have h2 := h1.filter (fun p => decide (p.1 = j))
  exact h2.length_le

theorem countKey_single_ne (k j : String) (v : Entry) (h : j ≠ k) :
    countKey [(k, v)] j = 0 := by
  simp [countKey, Ne.symm h]

theorem countKey_dictInsert_self (reg : Registry) (k : String) (v : Entry) :
    countKey (dictInsert reg k v) k = 1 := by
  unfold dictInsert
  rw [countKey_append, countKey_filter_ne_self]
  simp [countKey]

theorem countKey_dictInsert_le (reg : Registry) (k : String) (v : Entry)
    (hinv : ∀ j, countKey reg j ≤ 1) :
    ∀ j, countKey (dictInsert reg k v) j ≤ 1 := by
  intro j
  by_cases h : j = k
  · subst h
    rw [countKey_dictInsert_self]
  · unfold dictInsert
    rw [countKey_append, countKey_single_ne _ _ _ h, Nat.add_zero]
    exact le_trans (countKey_filter_ne_le reg k j) (hinv j)

theorem dictPop_none_of_lookup (reg : Registry) (k : String)
    (h : List.lookup k reg = none) : dictPop reg k = none := by
  unfold dictPop
  rw [h]

theorem end_session_aw_err (reg : Registry) (ex : Except Err Unit)
    (s : String) (u : ULIDv) (entry : Entry) (reg2 : Registry) (e : Err)
    (hs : ULID.from_str s = some u)
    (hp : dictPop reg (ULID.to_str u) = some (entry, reg2)) :
    end_session reg (.error e) ex s =
      ⟨.error e, reg2,
        [.parse s, .popEntry (ULID.to_str u), .setSignal entry.stopEvent,
         .awaitTask entry.task]⟩ := by
  simp only [end_session, hs, hp]
  rfl

theorem end_session_aw_ok (reg : Registry) (ex : Except Err Unit)
    (s : String) (u : ULIDv) (entry : Entry) (reg2 : Registry)
    (hs : ULID.from_str s = some u)
    (hp : dictPop reg (ULID.to_str u) = some (entry, reg2)) :
    end_session reg (.ok ()) ex s =
      ⟨match ex with | .error e => .error e | .ok _ => .ok (), reg2,
        [.parse s, .popEntry (ULID.to_str u), .setSignal entry.stopEvent,
         .awaitTask entry.task, .exitCtx entry.ctx]⟩ := by
  simp only [end_session, hs, hp]
  cases ex with
  | error e => rfl
  | ok v => rfl

theorem end_session_absent (reg : Registry) (aw ex : Except Err Unit)
    (s : String) (u : ULIDv)
    (hs : ULID.from_str s = some u)
    (hl : List.lookup (ULID.to_str u) reg = none) :
    end_session reg aw ex s =
      ⟨.error (.keyError (ULID.to_str u)), reg,
        [.parse s, .popEntry (ULID.to_str u)]⟩ := by
  simp only [end_session, hs, dictPop_none_of_lookup reg _ hl]

/-- C1 counterexample: in a concrete run of `end_session` where awaiting
the background task fails, the exception propagates and the
context-manager exit (the resource release) is never invoked — there is
no try/finally in `end_session` — contrary to the claim that release is
guaranteed on all exit paths including task failure. -/
theorem C1_counterexample :
    (end_session [(ULID.to_str ⟨5⟩, ⟨1, 2, 3⟩)] (.error (.external 0))
        (.ok ()) (ULID.to_str ⟨5⟩)).ret = .error (.external 0) ∧
    List.countP isExitCtx
      (end_session [(ULID.to_str ⟨5⟩, ⟨1, 2, 3⟩)] (.error (.external 0))
        (.ok ()) (ULID.to_str ⟨5⟩)).trace = 0 := by
  decide

/-- C1 (amended): for a started session, `end_session` invokes the
resource release (the context manager's exit) exactly once when awaiting
the background task succeeds — including when the release itself then
fails — but when awaiting the task fails the task's error propagates and
the release is not invoked at all; release is not guaranteed on the
task-failure exit path. -/
theorem C1_release_iff_await_ok (reg : Registry) (ex : Except Err Unit)
    (s : String) (u : ULIDv) (entry : Entry) (reg2 : Registry) (e : Err)
    (hs : ULID.from_str s = some u)
    (hp : dictPop reg (ULID.to_str u) = some (entry, reg2)) :
    ((end_session reg (.error e) ex s).ret = .error e ∧
     List.countP isExitCtx (end_session reg (.error e) ex s).trace = 0) ∧
    List.countP isExitCtx (end_session reg (.ok ()) ex s).trace = 1 := by
  rw [end_session_aw_err reg ex s u entry reg2 e hs hp,
      end_session_aw_ok reg ex s u entry reg2 hs hp]
  refine ⟨⟨rfl, ?_⟩, ?_⟩ <;> simp [isExitCtx]

/-- C1 witness: the amended claim evaluated on a concrete one-session
registry, for a failing await and a successful await. -/
theorem C1_release_iff_await_ok_witness :
    ((end_session [(ULID.to_str ⟨5⟩, ⟨1, 2, 3⟩)] (.error (.external 0))
        (.ok ()) (ULID.to_str ⟨5⟩)).ret = .error (.external 0) ∧
     List.countP isExitCtx
       (end_session [(ULID.to_str ⟨5⟩, ⟨1, 2, 3⟩)] (.error (.external 0))
         (.ok ()) (ULID.to_str ⟨5⟩)).trace = 0) ∧
    List.countP isExitCtx
      (end_session [(ULID.to_str ⟨5⟩, ⟨1, 2, 3⟩)] (.ok ())
        (.ok ()) (ULID.to_str ⟨5⟩)).trace = 1 :=
  C1_release_iff_await_ok [(ULID.to_str ⟨5⟩, ⟨1, 2, 3⟩)] (.ok ())
    (ULID.to_str ⟨5⟩) ⟨5⟩ ⟨1, 2, 3⟩ [] (.external 0) (by decide) (by decide)

/-- C2 counterexample: in a concrete successful run of `end_session`,
the registry removal (the pop) happens immediately after parsing and
before the cancellation signal is set, so removal is not performed after
the release as the claim states. -/
theorem C2_counterexample :
    (end_session [(ULID.to_str ⟨5⟩, ⟨1, 2, 3⟩)] (.ok ()) (.ok ())
        (ULID.to_str ⟨5⟩)).trace
      = [.parse (ULID.to_str ⟨5⟩), .popEntry (ULID.to_str ⟨5⟩),
         .setSignal 3, .awaitTask 2, .exitCtx 1] ∧
    ¬ ((end_session [(ULID.to_str ⟨5⟩, ⟨1, 2, 3⟩)] (.ok ()) (.ok ())
          (ULID.to_str ⟨5⟩)).trace.indexOf (Act.setSignal 3)
        < (end_session [(ULID.to_str ⟨5⟩, ⟨1, 2, 3⟩)] (.ok ()) (.ok ())
          (ULID.to_str ⟨5⟩)).trace.indexOf
            (Act.popEntry (ULID.to_str ⟨5⟩))) := by
  decide

/-- C2 (amended): for every session identifier present in the registry,
`end_session` performs its steps in this order: it parses the
identifier, removes the entry from the registry (the pop doubling as the
existence check), then sets the cancellation signal for that entry, then
waits for the background task to terminate, and releases the acquired
session resource last. -/
theorem C2_end_order (reg : Registry) (ex : Except Err Unit) (s : String)
    (u : ULIDv) (entry : Entry) (reg2 : Registry)
    (hs : ULID.from_str s = some u)
    (hp : dictPop reg (ULID.to_str u) = some (entry, reg2)) :
    (end_session reg (.ok ()) ex s).trace
      = [.parse s, .popEntry (ULID.to_str u), .setSignal entry.stopEvent,
         .awaitTask entry.task, .exitCtx entry.ctx] ∧
    (end_session reg (.ok ()) ex s).registry = reg2 := by
  rw [end_session_aw_ok reg ex s u entry reg2 hs hp]
  exact ⟨rfl, rfl⟩

/-- C2 witness: the amended step order on a concrete one-session
registry. -/
theorem C2_end_order_witness :
    (end_session [(ULID.to_str ⟨5⟩, ⟨1, 2, 3⟩)] (.ok ()) (.ok ())
        (ULID.to_str ⟨5⟩)).trace
      = [.parse (ULID.to_str ⟨5⟩), .popEntry (ULID.to_str ⟨5⟩),
         .setSignal 3, .awaitTask 2, .exitCtx 1] ∧
    (end_session [(ULID.to_str ⟨5⟩, ⟨1, 2, 3⟩)] (.ok ()) (.ok ())
        (ULID.to_str ⟨5⟩)).registry = [] :=
  C2_end_order [(ULID.to_str ⟨5⟩, ⟨1, 2, 3⟩)] (.ok ()) (ULID.to_str ⟨5⟩)
    ⟨5⟩ ⟨1, 2, 3⟩ [] (by decide) (by decide)

/-- C3: ending a session whose well-formed identifier is absent from the
registry fails with the `KeyError` carrying the canonical identifier —
the session-not-found condition, surfaced to the caller, never a silent
no-op success — and leaves the registry unchanged. Instantiating `reg`
with the registry left by a successful `end_session` gives the
second-of-two-calls case. -/
theorem C3_end_absent_fails (reg : Registry) (aw ex : Except Err Unit)
    (s : String) (u : ULIDv) (hs : ULID.from_str s = some u)
    (hl : List.lookup (ULID.to_str u) reg = none) :
    (end_session reg aw ex s).ret = .error (.keyError (ULID.to_str u)) ∧
    (end_session reg aw ex s).registry = reg := by
  rw [end_session_absent reg aw ex s u hs hl]
  exact ⟨rfl, rfl⟩

/-- C3 witness: a second `end_session` in sequence on the registry left
by a successful first `end_session` of the same identifier fails with
the not-found `KeyError` and changes nothing. -/
theorem C3_end_absent_fails_witness :
    (end_session
        (end_session [(ULID.to_str ⟨5⟩, ⟨1, 2, 3⟩)] (.ok ()) (.ok ())
          (ULID.to_str ⟨5⟩)).registry
        (.ok ()) (.ok ()) (ULID.to_str ⟨5⟩)).ret
      = .error (.keyError (ULID.to_str ⟨5⟩)) ∧
    (end_session
        (end_session [(ULID.to_str ⟨5⟩, ⟨1, 2, 3⟩)] (.ok ()) (.ok ())
          (ULID.to_str ⟨5⟩)).registry
        (.ok ()) (.ok ()) (ULID.to_str ⟨5⟩)).registry
      = (end_session [(ULID.to_str ⟨5⟩, ⟨1, 2, 3⟩)] (.ok ()) (.ok ())
          (ULID.to_str ⟨5⟩)).registry :=
  C3_end_absent_fails
    (end_session [(ULID.to_str ⟨5⟩, ⟨1, 2, 3⟩)] (.ok ()) (.ok ())
      (ULID.to_str ⟨5⟩)).registry
    (.ok ()) (.ok ()) (ULID.to_str ⟨5⟩) ⟨5⟩ (by decide) (by decide)

/-- C4: after `start_session` returns successfully, the returned value
is the handle's session record and the registry holds exactly one entry
under the canonical string of that record's identifier; when every key
had at most one binding before the call, that is still true afterwards
(at most one active entry per identifier at any time); and two distinct
identifiers issued by the recorder can never map to the same registry
key, because the canonical encoding is injective — so a `start` with a
fresh ULID never reuses an existing identifier. -/
theorem C4_start_registers
    (recorderSession : String → Metadata → Except Err Handle)
    (reg : Registry) (name : String) (md : Metadata)
    (ctxId taskId eventId : Nat) (h : Handle)
    (hrec : recorderSession name md = .ok h)
    (hinv : ∀ j, countKey reg j ≤ 1) :
    (start_session recorderSession reg name md ctxId taskId eventId).ret
        = .ok h.session ∧
    countKey (start_session recorderSession reg name md ctxId taskId
        eventId).registry (ULID.to_str h.session.id) = 1 ∧
    (∀ j, countKey (start_session recorderSession reg name md ctxId taskId
        eventId).registry j ≤ 1) ∧
    (∀ u2 : ULIDv, u2.val < 2 ^ 128 → h.session.id.val < 2 ^ 128 →
       u2 ≠ h.session.id →
       ULID.to_str u2 ≠ ULID.to_str h.session.id) := by
  have hred : start_session recorderSession reg name md ctxId taskId eventId
      = ⟨.ok h.session,
         dictInsert reg (ULID.to_str h.session.id) ⟨ctxId, taskId, eventId⟩,
         1⟩ := by
    simp only [start_session, hrec]
  rw [hred]
  refine ⟨rfl, countKey_dictInsert_self _ _ _,
    countKey_dictInsert_le _ _ _ hinv, ?_⟩
  intro u2 h2 h1 hne heq
  exact hne (to_str_inj u2 h.session.id h2 h1 heq)

/-- C4 witness: a concrete successful `start_session` on the empty
registry with a recorder-issued identifier. -/
theorem C4_start_registers_witness :
    (start_session (fun _ _ => .ok ⟨⟨⟨7⟩, "demo"⟩, 9⟩) [] "demo"
        (some [("purpose", "test")]) 1 2 3).ret = .ok ⟨⟨7⟩, "demo"⟩ ∧
    countKey (start_session (fun _ _ => .ok ⟨⟨⟨7⟩, "demo"⟩, 9⟩) [] "demo"
        (some [("purpose", "test")]) 1 2 3).registry (ULID.to_str ⟨7⟩) = 1 ∧
    (∀ j, countKey (start_session (fun _ _ => .ok ⟨⟨⟨7⟩, "demo"⟩, 9⟩) []
        "demo" (some [("purpose", "test")]) 1 2 3).registry j ≤ 1) ∧
    (∀ u2 : ULIDv, u2.val < 2 ^ 128 → (7 : Nat) < 2 ^ 128 →
       u2 ≠ ⟨7⟩ → ULID.to_str u2 ≠ ULID.to_str ⟨7⟩) :=
  C4_start_registers (fun _ _ => .ok ⟨⟨⟨7⟩, "demo"⟩, 9⟩) [] "demo"
    (some [("purpose", "test")]) 1 2 3 ⟨⟨⟨7⟩, "demo"⟩, 9⟩ rfl
    (fun j => by simp [countKey])

/-- C5 (code bug): at the façade boundary, PATCH of an unknown but
well-formed session identifier to status "ended" does not fail with
"not found": `update_session_status` calls the async `end_session`
without awaiting it from a synchronous endpoint, so the coroutine never
runs, no error can surface, and the endpoint returns the success body
with the registry untouched. -/
theorem C5_facade_silent_success :
    update_session_status [] "01ARZ3NDEKTSV4RRFFQ69G5FAV" "ended"
      = (.ok "ended", []) ∧
    List.lookup "01ARZ3NDEKTSV4RRFFQ69G5FAV" ([] : Registry) = none ∧
    (ULID.from_str "01ARZ3NDEKTSV4RRFFQ69G5FAV").isSome = true := by
  decide

/-- C6: when resource acquisition fails during `start_session`, the
failure is propagated unmodified, the registry is exactly as before the
call, and no background task is scheduled. -/
theorem C6_start_acquisition_failure
    (recorderSession : String → Metadata → Except Err Handle)
    (reg : Registry) (name : String) (md : Metadata)
    (ctxId taskId eventId : Nat) (err : Err)
    (h : recorderSession name md = .error err) :
    start_session recorderSession reg name md ctxId taskId eventId
      = ⟨.error err, reg, 0⟩ := by
  simp only [start_session, h]

/-- C6 witness: a concrete failing acquisition on a one-session
registry. -/
theorem C6_start_acquisition_failure_witness :
    start_session (fun _ _ => .error (.external 7))
        [(ULID.to_str ⟨5⟩, ⟨1, 2, 3⟩)] "demo" none 4 5 6
      = ⟨.error (.external 7), [(ULID.to_str ⟨5⟩, ⟨1, 2, 3⟩)], 0⟩ :=
  C6_start_acquisition_failure (fun _ _ => .error (.external 7))
    [(ULID.to_str ⟨5⟩, ⟨1, 2, 3⟩)] "demo" none 4 5 6 (.external 7) rfl

/-- C7: for a caller-supplied identifier that is not a well-formed ULID,
`end_session`, `get_events` and `get_session` raise `ValueError` and
leave the registry unchanged; the recorded action sequence of
`end_session` is just the parse, so the failure occurs before any
registry lookup or mutation. -/
theorem C7_malformed_identifier (reg : Registry) (aw ex : Except Err Unit)
    (rec : Recorder) (s : String) (h : ULID.from_str s = none) :
    end_session reg aw ex s = ⟨.error (.valueError s), reg, [.parse s]⟩ ∧
    get_events rec reg s = (.error (.valueError s), reg) ∧
    get_session rec reg s = (.error (.valueError s), reg) := by
  refine ⟨?_, ?_, ?_⟩ <;>
    simp only [end_session, get_events, get_session, h]

/-- C7 witness: the malformed identifier "zzz" on the empty registry. -/
theorem C7_malformed_identifier_witness :
    end_session [] (.ok ()) (.ok ()) "zzz"
      = ⟨.error (.valueError "zzz"), [], [.parse "zzz"]⟩ ∧
    get_events ⟨fun _ => [], [], fun _ => none⟩ [] "zzz"
      = (.error (.valueError "zzz"), []) ∧
    get_session ⟨fun _ => [], [], fun _ => none⟩ [] "zzz"
      = (.error (.valueError "zzz"), []) :=
  C7_malformed_identifier [] (.ok ()) (.ok ())
    ⟨fun _ => [], [], fun _ => none⟩ "zzz" (by decide)

/-- C8: for a well-formed session identifier and any recorder state, the
read operations leave the registry unchanged and return exactly what the
recorder collaborator returns for the parsed ULID: `get_events` the
recorder's event list in the recorder's order (an empty list stays an
empty list, not an error), `list_sessions` the recorder's session list,
and `get_session` the recorder's optional record, with absence the
normal value rather than a failure. -/
theorem C8_read_delegation (rec : Recorder) (reg : Registry)
    (s : String) (u : ULIDv) (h : ULID.from_str s = some u) :
    get_events rec reg s = (.ok (rec.getEvents u), reg) ∧
    list_sessions rec reg = (rec.listSessions, reg) ∧
    get_session rec reg s = (.ok (rec.getSession u), reg) := by
  refine ⟨?_, rfl, ?_⟩ <;>
    simp only [get_events, get_session, h]

/-- C8 witness: a recorder holding two events for the queried session,
no session records, and an absent `get_session` answer, on a one-session
registry that the reads leave untouched. -/
theorem C8_read_delegation_witness :
    get_events
        ⟨fun _ => [⟨"/dev/input/event0", 30, 1⟩, ⟨"/dev/input/event0", 30, 0⟩],
         [], fun _ => none⟩
        [(ULID.to_str ⟨5⟩, ⟨1, 2, 3⟩)] (ULID.to_str ⟨5⟩)
      = (.ok [⟨"/dev/input/event0", 30, 1⟩, ⟨"/dev/input/event0", 30, 0⟩],
         [(ULID.to_str ⟨5⟩, ⟨1, 2, 3⟩)]) ∧
    list_sessions
        ⟨fun _ => [⟨"/dev/input/event0", 30, 1⟩, ⟨"/dev/input/event0", 30, 0⟩],
         [], fun _ => none⟩
        [(ULID.to_str ⟨5⟩, ⟨1, 2, 3⟩)]
      = ([], [(ULID.to_str ⟨5⟩, ⟨1, 2, 3⟩)]) ∧
    get_session
        ⟨fun _ => [⟨"/dev/input/event0", 30, 1⟩, ⟨"/dev/input/event0", 30, 0⟩],
         [], fun _ => none⟩
        [(ULID.to_str ⟨5⟩, ⟨1, 2, 3⟩)] (ULID.to_str ⟨5⟩)
      = (.ok none, [(ULID.to_str ⟨5⟩, ⟨1, 2, 3⟩)]) :=
  C8_read_delegation
    ⟨fun _ => [⟨"/dev/input/event0", 30, 1⟩, ⟨"/dev/input/event0", 30, 0⟩],
     [], fun _ => none⟩
    [(ULID.to_str ⟨5⟩, ⟨1, 2, 3⟩)] (ULID.to_str ⟨5⟩) ⟨5⟩ (by decide)

/-- C9: when the cancellation signal was set and the background task
terminated (the await succeeded) but releasing the session resource
fails, the release error propagates from `end_session` and the
identifier is nevertheless absent from the resulting registry — the
entry had already been removed by the pop at the start of the call. -/
theorem C9_release_failure_entry_absent (reg : Registry) (s : String)
    (u : ULIDv) (entry : Entry) (reg2 : Registry) (err : Err)
    (hs : ULID.from_str s = some u)
    (hp : dictPop reg (ULID.to_str u) = some (entry, reg2)) :
    (end_session reg (.ok ()) (.error err) s).ret = .error err ∧
    List.lookup (ULID.to_str u)
      (end_session reg (.ok ()) (.error err) s).registry = none := by
  rw [end_session_aw_ok reg (.error err) s u entry reg2 hs hp]
  refine ⟨rfl, ?_⟩
  show List.lookup (ULID.to_str u) reg2 = none
  rw [(dictPop_some reg (ULID.to_str u) entry reg2 hp).1]
  exact lookup_filter_ne reg (ULID.to_str u)

/-- C9 witness: a failing release on a concrete one-session registry
still leaves the identifier absent. -/
theorem C9_release_failure_entry_absent_witness :
    (end_session [(ULID.to_str ⟨5⟩, ⟨1, 2, 3⟩)] (.ok ())
        (.error (.external 3)) (ULID.to_str ⟨5⟩)).ret
      = .error (.external 3) ∧
    List.lookup (ULID.to_str ⟨5⟩)
      (end_session [(ULID.to_str ⟨5⟩, ⟨1, 2, 3⟩)] (.ok ())
        (.error (.external 3)) (ULID.to_str ⟨5⟩)).registry = none :=
  C9_release_failure_entry_absent [(ULID.to_str ⟨5⟩, ⟨1, 2, 3⟩)]
    (ULID.to_str ⟨5⟩) ⟨5⟩ ⟨1, 2, 3⟩ [] (.external 3) (by decide) (by decide)

/-- C10: any spelling `s` that parses to a session's ULID addresses the
same session as the canonical spelling: `end_session`, `get_events` and
`get_session` produce the same outcome (and the same registry) on `s`
and on `ULID.to_str u`, because each operation first canonicalises its
input through `ULID.from_str` — `end_session` keys the pop by
`str(ULID.from_str(s))` and the reads query the recorder by the parsed
ULID value. -/
theorem C10_canonical_equiv (rec : Recorder) (reg : Registry)
    (aw ex : Except Err Unit) (s : String) (u : ULIDv)
    (hval : u.val < 2 ^ 128) (hs : ULID.from_str s = some u) :
    (end_session reg aw ex s).ret
        = (end_session reg aw ex (ULID.to_str u)).ret ∧
    (end_session reg aw ex s).registry
        = (end_session reg aw ex (ULID.to_str u)).registry ∧
    get_events rec reg s = get_events rec reg (ULID.to_str u) ∧
    get_session rec reg s = get_session rec reg (ULID.to_str u) := by
  have hc := from_str_to_str u hval
  refine ⟨?_, ?_, ?_, ?_⟩
  · simp only [end_session, hs, hc]
    cases dictPop reg (ULID.to_str u) with
    | none => rfl
    | some p =>
      obtain ⟨entry, reg2⟩ := p
      cases aw with
      | error e => rfl
      | ok v =>
        cases ex with
        | error e => rfl
        | ok w => rfl
  · simp only [end_session, hs, hc]
    cases dictPop reg (ULID.to_str u) with
    | none => rfl
    | some p =>
      obtain ⟨entry, reg2⟩ := p
      cases aw with
      | error e => rfl
      | ok v =>
        cases ex with
        | error e => rfl
        | ok w => rfl
  · simp only [get_events, hs, hc]
  · simp only [get_session, hs, hc]

/-- C10 witness: the lowercase spelling of the ULID with value 10
addresses the registered session exactly as its canonical uppercase
spelling does. -/
theorem C10_canonical_equiv_witness :
    (end_session [(ULID.to_str ⟨10⟩, ⟨1, 2, 3⟩)] (.ok ()) (.ok ())
        "0000000000000000000000000a").ret
      = (end_session [(ULID.to_str ⟨10⟩, ⟨1, 2, 3⟩)] (.ok ()) (.ok ())
          (ULID.to_str ⟨10⟩)).ret ∧
    (end_session [(ULID.to_str ⟨10⟩, ⟨1, 2, 3⟩)] (.ok ()) (.ok ())
        "0000000000000000000000000a").registry
      = (end_session [(ULID.to_str ⟨10⟩, ⟨1, 2, 3⟩)] (.ok ()) (.ok ())
          (ULID.to_str ⟨10⟩)).registry ∧
    get_events ⟨fun _ => [], [], fun _ => none⟩
        [(ULID.to_str ⟨10⟩, ⟨1, 2, 3⟩)] "0000000000000000000000000a"
      = get_events ⟨fun _ => [], [], fun _ => none⟩
          [(ULID.to_str ⟨10⟩, ⟨1, 2, 3⟩)] (ULID.to_str ⟨10⟩) ∧
    get_session ⟨fun _ => [], [], fun _ => none⟩
        [(ULID.to_str ⟨10⟩, ⟨1, 2, 3⟩)] "0000000000000000000000000a"
      = get_session ⟨fun _ => [], [], fun _ => none⟩
          [(ULID.to_str ⟨10⟩, ⟨1, 2, 3⟩)] (ULID.to_str ⟨10⟩) :=
  C10_canonical_equiv ⟨fun _ => [], [], fun _ => none⟩
    [(ULID.to_str ⟨10⟩, ⟨1, 2, 3⟩)] (.ok ()) (.ok ())
    "0000000000000000000000000a" ⟨10⟩ (by norm_num) (by decide)
